import Mathlib

/-!
Verification of the Achron replay decoder.

The decoder reads a little-endian binary replay log: a header followed by a
stream of envelopes (timestamp, message-type, content-type, seat, and a
u32-length-prefixed parameter block).  Envelopes are dispatched on their tags
to message constructors; the "chronal commands" content further decodes a
count-prefixed batch of command records.  Per-player simulated time is
reconstructed from wall-tick deltas scaled by a mutable speed factor.

Byte buffers are modelled as `List Nat` (each element a byte value), Python
exceptions as an explicit error type threaded through `Except`, and the
float arithmetic of the player clock as exact rational arithmetic (the
factors involved are 0, 1/2, 1 and 2, for which the source's double
precision arithmetic is exact).
-/

namespace AchronReplay

/-- The Python exceptions the decoder can raise, as an explicit error type. -/
inductive PyError where
  /-- dictionary lookup miss; carries the absent key -/
  | keyError (key : Nat)
  /-- struct.unpack / struct.unpack_from buffer size mismatch -/
  | structError
  /-- calling a non-callable (the dispatch entry that maps to None) -/
  | typeError
  /-- attribute access or assignment on an int or on None -/
  | attributeError
  /-- non-ASCII byte encountered by bytes.decode -/
  | unicodeDecodeError
  deriving DecidableEq

instance {e a : Type} [DecidableEq e] [DecidableEq a] : DecidableEq (Except e a)
  | .ok x, .ok y => if h : x = y then .isTrue (by rw [h]) else .isFalse (by simp [h])
  | .ok _, .error _ => .isFalse (by simp)
  | .error _, .ok _ => .isFalse (by simp)
  | .error x, .error y => if h : x = y then .isTrue (by rw [h]) else .isFalse (by simp [h])

/-- Little-endian value of a byte list (least significant byte first). -/
def bytesToNatLE : List Nat → Nat
  | [] => 0
  | b :: rest => b + 256 * bytesToNatLE rest

/-- Byte at index `i` (callers guard the length themselves). -/
def byteAt (data : List Nat) (i : Nat) : Nat := data.getD i 0

/-- Little-endian 16-bit field starting at index `i`. -/
def u16At (data : List Nat) (i : Nat) : Nat := bytesToNatLE ((data.drop i).take 2)

/-- Little-endian 32-bit field starting at index `i`. -/
def u32At (data : List Nat) (i : Nat) : Nat := bytesToNatLE ((data.drop i).take 4)

/-- struct.unpack_from of a single little-endian unsigned field of width
`size` at `offset`: fails iff fewer than `size` bytes follow `offset`. -/
def unpackFromLE (size : Nat) (data : List Nat) (offset : Nat) : Except PyError Nat :=
  if offset + size ≤ data.length then .ok (bytesToNatLE ((data.drop offset).take size))
  else .error .structError

/-- struct.unpack of a single little-endian unsigned field: the whole buffer
must consist of exactly `size` bytes. -/
def unpackExactLE (size : Nat) (data : List Nat) : Except PyError Nat :=
  if data.length = size then .ok (bytesToNatLE data) else .error .structError

/-- bytes.decode("ascii"): every byte must be below 128. -/
def asciiDecode (bs : List Nat) : Except PyError (List Char) :=
  if bs.all (fun b => b < 128) then .ok (bs.map (fun b => Char.ofNat b))
  else .error .unicodeDecodeError

/-- The characters str.strip removes, restricted to ASCII (all that can
reach it through decode("ascii")): the common whitespace \x09-\x0d and
space, plus the file/group/record/unit separators \x1c-\x1f, which CPython
also treats as whitespace. -/
def isPySpace (c : Char) : Bool :=
  c = ' ' || c = '\t' || c = '\n' || c = '\r' || c = '\x0b' || c = '\x0c'
    || c = '\x1c' || c = '\x1d' || c = '\x1e' || c = '\x1f'

/-- str.strip(): drop leading and trailing whitespace. -/
def pyStrip (s : List Char) : List Char :=
  ((s.dropWhile isPySpace).reverse.dropWhile isPySpace).reverse

/-- _unpack_bitmask(value, length): one Bool per bit index 0 .. length-2
(the top bit of the requested width is deliberately dropped). -/
def unpack_bitmask (value length : Nat) : List Bool :=
  (List.range (length - 1)).map (fun x => value &&& (1 <<< x) != 0)

/-- _read_length_prefixed_field: read a length field of `lenSize` bytes at
`offset`, then return the following `length` bytes and the offset just past
them.  The slice is a Python slice: it silently clamps to the end of the
buffer when `length` overruns it. -/
def readLengthPrefixedField (lenSize : Nat) (data : List Nat) (offset : Nat) :
    Except PyError (List Nat × Nat) := do
  let length ← unpackFromLE lenSize data offset
  let offset := offset + lenSize
  .ok ((data.drop offset).take length, offset + length)

/-- _read_string: a length-prefixed field decoded as ASCII. -/
def read_string (lenSize : Nat) (data : List Nat) (offset : Nat) :
    Except PyError (List Char × Nat) := do
  let (field, offset) ← readLengthPrefixedField lenSize data offset
  let s ← asciiDecode field
  .ok (s, offset)

/-- Per-seat mutable player state: display name plus the clock fields. -/
structure Player where
  seat : Nat
  name : List Char
  time_position : Int
  last_timestamp : Int
  time_speed_factor : Rat
  deriving DecidableEq

/-- Player.__init__(seat, name). -/
def Player.make (seat : Nat) (name : List Char) : Player :=
  { seat := seat, name := name, time_position := 0, last_timestamp := 0,
    time_speed_factor := 1 }

/-- Python int() on a rational: truncation toward zero. -/
def ratTrunc (q : Rat) : Int := q.num.tdiv q.den

/-- Player._update_timestamp(timestamp): halve the elapsed wall ticks, scale
by the speed factor, truncate toward zero, accumulate. -/
def Player.update_timestamp (p : Player) (timestamp : Int) : Player :=
  let delta_game_ticks : Rat := ((timestamp : Rat) - (p.last_timestamp : Rat)) / 2
  { p with
      time_position := p.time_position + ratTrunc (delta_game_ticks * p.time_speed_factor),
      last_timestamp := timestamp }

/-- Exact Nat division (floor) only depends on the ratio. -/
theorem nat_div_congr (a b c d : Nat) (hb : 0 < b) (hd : 0 < d)
    (h : a * d = c * b) : a / b = c / d := by
  apply Nat.le_antisymm
  · rw [Nat.le_div_iff_mul_le hd]
    nlinarith [Nat.div_mul_le_self a b]
  · rw [Nat.le_div_iff_mul_le hb]
    nlinarith [Nat.div_mul_le_self c d]

/-- Truncating Int division, nonnegative dividends: depends only on the ratio. -/
theorem int_tdiv_congr_nonneg (a b c d : Int) (ha : 0 ≤ a) (hb : 0 < b)
    (hc : 0 ≤ c) (hd : 0 < d) (h : a * d = c * b) : a.tdiv b = c.tdiv d := by
  obtain ⟨m, rfl⟩ := Int.eq_ofNat_of_zero_le ha
  obtain ⟨n, rfl⟩ := Int.eq_ofNat_of_zero_le hb.le
  obtain ⟨r, rfl⟩ := Int.eq_ofNat_of_zero_le hc
  obtain ⟨s, rfl⟩ := Int.eq_ofNat_of_zero_le hd.le
  rw [Int.tdiv_eq_ediv ha hb.le, Int.tdiv_eq_ediv hc hd.le,
    ← Int.ofNat_ediv, ← Int.ofNat_ediv]
  have hn : 0 < n := by exact_mod_cast hb
  have hs : 0 < s := by exact_mod_cast hd
  have hmn : m * s = r * n := by exact_mod_cast h
  exact_mod_cast nat_div_congr m n r s hn hs hmn

/-- Truncating Int division only depends on the ratio (positive divisors). -/
theorem int_tdiv_congr (a b c d : Int) (hb : 0 < b) (hd : 0 < d)
    (h : a * d = c * b) : a.tdiv b = c.tdiv d := by
  rcases le_or_lt 0 a with ha | ha
  · exact int_tdiv_congr_nonneg a b c d ha hb (by nlinarith) hd h
  · have hc : c < 0 := by nlinarith
    have hma : ((a.natAbs : Int)) = -a := by omega
    have hmc : ((c.natAbs : Int)) = -c := by omega
    have ha' : a = -(a.natAbs : Int) := by omega
    have hc' : c = -(c.natAbs : Int) := by omega
    rw [ha', Int.neg_tdiv, hc', Int.neg_tdiv]
    congr 1
    apply int_tdiv_congr_nonneg _ _ _ _ (by positivity) hb (by positivity) hd
    rw [hma, hmc, neg_mul, neg_mul, h]

/-- Truncation toward zero of an exact integer fraction. -/
theorem ratTrunc_divInt (a b : Int) (hb : 0 < b) :
    ratTrunc (Rat.divInt a b) = a.tdiv b := by
  set q := Rat.divInt a b with hq
  have hcross : q.num * b = a * (q.den : Int) := by
    have h1 : Rat.divInt q.num (q.den : Int) = Rat.divInt a b := by
      rw [Rat.num_divInt_den, hq]
    exact (Rat.divInt_eq_divInt (by exact_mod_cast q.den_nz) hb.ne' |>.mp h1)
  exact int_tdiv_congr _ _ _ _ (by exact_mod_cast q.pos) hb hcross

/-- Truncating an exact rational product of an integer fraction and a
rational factor, in terms of integer arithmetic. -/
theorem ratTrunc_formula (a : Int) (f : Rat) (b : Int) (hb : 0 < b) :
    ratTrunc ((a : Rat) / (b : Rat) * f) = (a * f.num).tdiv (b * (f.den : Int)) := by
  have hbR : (b : Rat) ≠ 0 := by exact_mod_cast hb.ne'
  have hdR : ((f.den : Int) : Rat) ≠ 0 := by
    exact_mod_cast (Int.natCast_pos.mpr f.pos).ne'
  have h : (a : Rat) / (b : Rat) * f = Rat.divInt (a * f.num) (b * (f.den : Int)) := by
    rw [Rat.divInt_eq_div]
    conv_lhs => rw [← Rat.num_div_den f]
    push_cast
    field_simp
    try ring
  rw [h, ratTrunc_divInt _ _ (by positivity)]

/-- The clock update, evaluated to pure integer arithmetic. -/
theorem Player.update_timestamp_eval (p : Player) (t : Int) :
    p.update_timestamp t = { p with
      time_position := p.time_position +
        ((t - p.last_timestamp) * p.time_speed_factor.num).tdiv
          (2 * (p.time_speed_factor.den : Int)),
      last_timestamp := t } := by
  have hcast : ((t : Rat) - (p.last_timestamp : Rat)) = ((t - p.last_timestamp : Int) : Rat) := by
    push_cast; ring
  have h2 : ((2 : Int) : Rat) = (2 : Rat) := by norm_num
  have key : ratTrunc (((t : Rat) - (p.last_timestamp : Rat)) / 2 * p.time_speed_factor)
      = ((t - p.last_timestamp) * p.time_speed_factor.num).tdiv
          (2 * (p.time_speed_factor.den : Int)) := by
    rw [hcast, ← h2, ratTrunc_formula _ _ _ (by norm_num)]
  simp only [Player.update_timestamp]
  rw [key]

/-- The reverse-engineered objective-label table: id to ordered list of
(label, parameter-kind) pairs. -/
def objectives : List (Nat × List (String × String)) := [
  (0, [("Defend", "NO_PARAMETER"), ("Idle", "NO_PARAMETER")]),
  (1, [("Move", "POSITION"), ("display waypoint", "POSITION"), ("New (Down)", "NO_PARAMETER"), ("Attack Unit", "UNIT"), ("Processing", "NO_PARAMETER"), ("Build MFB", "NO_PARAMETER"), ("Build Tornade", "NO_PARAMETER")]),
  (2, [("Attack", "POSITION_OR_UNIT"), ("New (Up)", "NO_PARAMETER"), ("Process Resource", "UNIT"), ("Process Resources", "UNIT"), ("Build Frigate", "NO_PARAMETER"), ("Create Marines", "NO_PARAMETER"), ("Build Mech", "NO_PARAMETER")]),
  (3, [("Patrol", "POSITION_OR_UNIT"), ("New (Down Left)", "NO_PARAMETER"), ("Make Octo", "NO_PARAMETER"), ("Build MFB", "NO_PARAMETER"), ("Create SOPs", "NO_PARAMETER"), ("Build ATHC", "NO_PARAMETER")]),
  (4, [("Attack Unit", "UNIT"), ("New (Down Right)", "NO_PARAMETER"), ("Make Sepi", "NO_PARAMETER"), ("Turn AutoCommand ON", "NO_PARAMETER"), ("Turn Auto Hierarchy ON", "NO_PARAMETER"), ("Build Blackbird", "NO_PARAMETER"), ("Build Lancer", "NO_PARAMETER")]),
  (5, [("New (Up Left)", "NO_PARAMETER"), ("Make Pharo", "NO_PARAMETER"), ("Turn Smart Idle ON", "NO_PARAMETER"), ("Build Heavy Cruiser", "NO_PARAMETER"), ("Build Tornade", "NO_PARAMETER")]),
  (6, [("New (Up Right)", "NO_PARAMETER"), ("Turn AutoCommand OFF", "NO_PARAMETER"), ("Turn Auto Hierarchy OFF", "NO_PARAMETER"), ("Build MAR Tank", "NO_PARAMETER"), ("Build Tank", "NO_PARAMETER")]),
  (7, [("Turn Smart Idle OFF", "NO_PARAMETER"), ("Build Heavy Cruiser", "NO_PARAMETER"), ("Build Tank", "NO_PARAMETER")]),
  (8, [("Change Commander", "UNIT"), ("Relocate", "NO_PARAMETER"), ("Attack", "UNIT"), ("Build Blackbird", "NO_PARAMETER"), ("Attack Unit", "UNIT"), ("displaying waypoint", "POSITION")]),
  (9, [("Remove from Hierarchy", "NO_PARAMETER"), ("Remove from Heirarchy", "NO_PARAMETER"), ("Relocate", "POSITION"), ("Move", "POSITION"), ("Clear Commander", "NO_PARAMETER")]),
  (10, [("Priority", "NO_PARAMETER"), ("Lead group", "NO_PARAMETER")]),
  (11, [("Build", "NO_PARAMETER"), ("Load Unit", "UNIT"), ("Nanite Infect", "NO_PARAMETER"), ("Place buildings", "NO_PARAMETER"), ("Merge", "UNIT"), ("Stop and re-enable", "NO_PARAMETER"), ("Chrono-Freeze", "NO_PARAMETER"), ("Defend/Repel", "NO_PARAMETER"), ("Build Foundation", "NO_PARAMETER"), ("Build Resource Processor", "POSITION"), ("Build Comm Hub", "POSITION"), ("Drop Nuke Now ", "NO_PARAMETER"), ("Resource Processor", "POSITION"), ("Comm Jam", "NO_PARAMETER"), ("Morph: Reaph", "POSITION"), ("Morph: Arcticus", "POSITION")]),
  (12, [("Clear Nanite", "UNIT"), ("Release Cargo", "POSITION"), ("Build Foundation", "NO_PARAMETER"), ("Upgrade Tank", "NO_PARAMETER"), ("Activate", "POSITION"), ("Merge", "NO_PARAMETER"), ("Upgrade", "NO_PARAMETER"), ("Temporal Soliton Shield", "NO_PARAMETER"), ("Stop", "POSITION"), ("Nuke a Location", "POSITION"), ("Moving to Morph ", "NO_PARAMETER")]),
  (13, [("Ride in a Tank", "NO_PARAMETER"), ("Cancel Progen for All", "NO_PARAMETER"), ("Cancel Build", "NO_PARAMETER"), ("Merge", "NO_PARAMETER"), ("QPlasma -> LCrystal", "NO_PARAMETER"), ("Clear Nanite", "NO_PARAMETER"), ("Morph to Pharo", "NO_PARAMETER"), ("displaying waypoint", "POSITION")]),
  (14, [("Cancel Build", "NO_PARAMETER"), ("Cancel Factory/Progeneration", "NO_PARAMETER"), ("Fix Troops", "UNIT"), ("Cancel Make Buildings", "NO_PARAMETER"), ("Clear Nanite", "UNIT"), ("Fix Unit", "UNIT"), ("Cancel Piloting", "NO_PARAMETER"), ("Reload Nuke", "NO_PARAMETER"), ("Cancel Progeneration", "NO_PARAMETER")]),
  (15, [("Recover", "UNIT"), ("Recover Status", "UNIT"), ("Break TSS", "UNIT")]),
  (16, [("Stop", "NO_PARAMETER"), ("Chronobomb", "POSITION"), ("Temporal Soliton Shield", "UNIT")]),
  (17, [("Release Unit", "NO_PARAMETER"), ("Cloaking On", "NO_PARAMETER"), ("Release Troop", "NO_PARAMETER"), ("ChronoBomb", "NO_PARAMETER"), ("Break TSS", "UNIT"), ("Morph: Dome", "NO_PARAMETER")]),
  (18, [("", "NO_PARAMETER"), ("Congregate units at", "POSITION_OR_UNIT"), ("Plasma Bomb", "NO_PARAMETER"), ("Congregate Units At", "POSITION_OR_UNIT"), ("Congregate Troops At", "POSITION_OR_UNIT"), ("Morph: Dome", "POSITION"), ("Morph: Mound", "POSITION")]),
  (19, [("Clear Congregation Point", "NO_PARAMETER"), ("", "NO_PARAMETER"), ("Upgrade Skip-Teleport", "NO_PARAMETER"), ("Upgrade Tank", "NO_PARAMETER"), ("Chronobomb", "NO_PARAMETER"), ("Upgrade Beam", "NO_PARAMETER"), ("Repel", "NO_PARAMETER"), ("Upgrade", "NO_PARAMETER")]),
  (20, [("Rally on unit", "UNIT"), ("Uncloak", "NO_PARAMETER"), ("Skip Torpedo", "POSITION"), ("Nanite Infect", "UNIT"), ("Plasma Bomb", "POSITION"), ("Fire Charge Beam", "UNIT"), ("Repel", "NO_PARAMETER"), ("Chrono-Freeze ", "NO_PARAMETER"), ("Equip Nuke", "NO_PARAMETER"), ("Auto Slingshot", "POSITION"), ("Defend/Repel", "NO_PARAMETER"), ("Comm Jam", "NO_PARAMETER")]),
  (21, [("Teleport Self To", "POSITION"), ("Relink (to Arcticus)", "UNIT"), ("ChronoBomb", "POSITION"), ("Rally on unit", "UNIT"), ("Cancel Defend/Repel", "NO_PARAMETER")]),
  (22, [("Resource Processor", "POSITION"), ("Slingshot", "POSITION"), ("Skip Torpedo", "NO_PARAMETER"), ("Attack Dispatch", "POSITION_OR_UNIT"), ("Plasma Bomb", "NO_PARAMETER"), ("Equip Nuke", "NO_PARAMETER")]),
  (23, [("Importer", "POSITION"), ("Teleporter", "POSITION"), ("Move Dispatch", "POSITION"), ("ChronoBomb", "NO_PARAMETER"), ("", "NO_PARAMETER"), ("displaying waypoint", "POSITION")]),
  (24, [("Factory", "POSITION"), ("Defense Turret", "POSITION"), ("Stop Dispatch", "NO_PARAMETER"), ("Upgrade Adv Structures", "NO_PARAMETER"), ("Make Vehicles", "NO_PARAMETER"), ("Upgrade Machinery", "NO_PARAMETER"), ("Upgrade Autodefence", "NO_PARAMETER")]),
  (25, [("Armory", "POSITION"), ("Macrofab", "POSITION"), ("Chronoport Dispatch", "TIME"), ("", "NO_PARAMETER"), ("Make Vehicles", "NO_PARAMETER")]),
  (26, [("Comm Center", "POSITION"), ("Defense Turret", "NO_PARAMETER"), ("Make Resource Processor", "POSITION"), ("Upgrade Loligo Class", "NO_PARAMETER"), ("Upgrade Ground Units", "NO_PARAMETER"), ("Research Halcyon Class", "NO_PARAMETER")]),
  (27, [("Slingshot", "NO_PARAMETER"), ("Create Depot", "NO_PARAMETER"), ("Make Mound", "POSITION"), ("", "NO_PARAMETER")]),
  (28, [("Chronoporter", "POSITION"), ("Make Reaph", "POSITION"), ("Upgrade Specials", "NO_PARAMETER")]),
  (29, [("Teleporter", "NO_PARAMETER"), ("Create Annex", "NO_PARAMETER"), ("Make Arcticus", "POSITION"), ("", "NO_PARAMETER")]),
  (30, [("Chronoporter", "NO_PARAMETER"), ("Make Spyre", "POSITION"), ("Upgrade Chronoporting", "NO_PARAMETER"), ("Zayin Pulser", "NO_PARAMETER"), ("Upgrade Gate Tech", "NO_PARAMETER")]),
  (31, [("Carrier", "POSITION"), ("Make Dome", "POSITION"), ("", "NO_PARAMETER"), ("Teth Pulser", "NO_PARAMETER"), ("Garguntuan", "POSITION"), ("Spyre", "POSITION")]),
  (32, [("Carrier", "NO_PARAMETER"), ("Make Dome", "NO_PARAMETER"), ("Upgrade Weapons", "NO_PARAMETER"), ("Shin Pulser", "NO_PARAMETER"), ("Upgrade Aerospace", "NO_PARAMETER"), ("Upgrade Weaponry", "NO_PARAMETER"), ("Spyre", "NO_PARAMETER")]),
  (33, [("Make Spyre", "NO_PARAMETER"), ("", "NO_PARAMETER"), ("Zayin Tercher", "NO_PARAMETER")]),
  (34, [("Carry/Commander", "UNIT"), ("Create SlipGate", "NO_PARAMETER"), ("Chronoport Dispatch", "NO_PARAMETER"), ("Teth Tercher", "NO_PARAMETER")]),
  (35, [("Factory/Progeneration", "NO_PARAMETER"), ("Carrier", "NO_PARAMETER"), ("Create Bastion", "NO_PARAMETER"), ("Shin Tercher", "NO_PARAMETER")]),
  (36, [("Importer", "POSITION"), ("Create Incepter", "NO_PARAMETER"), ("Upgrade Chronoporting", "NO_PARAMETER"), ("Zayin Halcyon", "NO_PARAMETER"), ("Upgrade Gate Tech", "NO_PARAMETER")]),
  (37, [("Factory/Progeneration", "POSITION"), ("Armory", "POSITION"), ("Create Incepter", "NO_PARAMETER"), ("Upgrade Chronoporting", "NO_PARAMETER"), ("Teth Halcyon", "NO_PARAMETER")]),
  (38, [("Produce Octopod", "NO_PARAMETER"), ("Upgrade Weapons", "NO_PARAMETER"), ("Shin Halcyon", "NO_PARAMETER"), ("Upgrade Aerospace", "NO_PARAMETER"), ("Upgrade Weaponry", "NO_PARAMETER"), ("Produce Octo", "NO_PARAMETER")]),
  (39, [("Produce Sepipod", "NO_PARAMETER"), ("Create Incepter", "NO_PARAMETER"), ("Upgrade Weapons", "NO_PARAMETER"), ("", "NO_PARAMETER"), ("Upgrade Aerospace", "NO_PARAMETER"), ("Upgrade Weaponry", "NO_PARAMETER"), ("Pilot Vehicle", "NO_PARAMETER"), ("Produce Sepi", "NO_PARAMETER")]),
  (40, [("Produce Pharopod", "NO_PARAMETER"), ("Upgrade Adv Structures", "NO_PARAMETER"), ("Shin Pulser", "NO_PARAMETER"), ("Split Down", "NO_PARAMETER"), ("Upgrade Machinery", "NO_PARAMETER"), ("Upgrade Autodefense", "NO_PARAMETER"), ("Pilot Pulser", "NO_PARAMETER"), ("Produce Pharo", "NO_PARAMETER")]),
  (41, [("Produce Octoligo", "NO_PARAMETER"), ("Upgrade Specials", "NO_PARAMETER"), ("Teth Tercher", "NO_PARAMETER"), ("Equip Nuke", "NO_PARAMETER"), ("Pilot Tercher", "NO_PARAMETER"), ("Produce Octopod", "NO_PARAMETER")]),
  (42, [("Produce Sepiligo", "NO_PARAMETER"), ("Upgrade Loligo Class", "NO_PARAMETER"), ("Shin Tercher", "NO_PARAMETER"), ("Upgrade Ground Units", "NO_PARAMETER"), ("Research Halcyon Class", "NO_PARAMETER"), ("Pilot Halcyon", "NO_PARAMETER"), ("Produce Sepipod", "NO_PARAMETER")]),
  (43, [("Produce Pharoligo", "NO_PARAMETER"), ("Zayin Halcyon", "NO_PARAMETER"), ("Create Marines", "NO_PARAMETER"), ("Create Zayin Vir", "NO_PARAMETER"), ("Pilot Halcyon", "NO_PARAMETER"), ("Produce Pharopod", "NO_PARAMETER")]),
  (44, [("Octopod", "NO_PARAMETER"), ("Teth Halcyon", "NO_PARAMETER"), ("Create SOPs", "NO_PARAMETER"), ("Create Teth Vir", "NO_PARAMETER"), ("Octo", "NO_PARAMETER")]),
  (45, [("Chronoport", "NO_PARAMETER"), ("Sepipod", "NO_PARAMETER"), ("", "NO_PARAMETER"), ("Shin Halcyon", "NO_PARAMETER"), ("Create Shin Vir", "NO_PARAMETER"), ("Sepi", "NO_PARAMETER")]),
  (46, [("Chronoport", "NO_PARAMETER"), ("Pharopod", "NO_PARAMETER"), ("Chronoport ", "NO_PARAMETER"), ("Shin Halcyon", "NO_PARAMETER"), ("Create Zayin Vir", "NO_PARAMETER"), ("Pharo", "NO_PARAMETER")]),
  (47, [("Teleport", "POSITION"), ("Octoligo", "NO_PARAMETER"), ("Teleport Self To", "POSITION"), ("Create Teth Vir", "NO_PARAMETER"), ("Octopod", "NO_PARAMETER")]),
  (48, [("Chronoport", "TIME"), ("Sepiligo", "NO_PARAMETER"), ("Create Shin Vir", "NO_PARAMETER"), ("Sepipod", "NO_PARAMETER")]),
  (49, [("Pharoligo", "NO_PARAMETER"), ("Pharopod", "NO_PARAMETER"), ("Pharpod", "NO_PARAMETER")]),
  (50, [("Teleport", "NO_PARAMETER"), ("Octoligo", "NO_PARAMETER"), ("", "NO_PARAMETER"), ("Human", "NO_PARAMETER")]),
  (51, [("Sepiligo", "NO_PARAMETER"), ("Grekim", "NO_PARAMETER"), ("", "NO_PARAMETER")]),
  (52, [("Pharoligo", "NO_PARAMETER"), ("Vecgir", "NO_PARAMETER"), ("Upgrade Power", "NO_PARAMETER"), ("Octo Resource Processor", "POSITION")]),
  (53, [("Sepiligo", "NO_PARAMETER"), ("Random", "NO_PARAMETER"), ("Upgrade Power", "NO_PARAMETER")]),
  (54, [("Pharoligo", "NO_PARAMETER"), ("Upgrade Power", "NO_PARAMETER")]),
  (55, [("Sepipod", "NO_PARAMETER")]),
  (56, [("Pharopod", "NO_PARAMETER")]),
  (57, [("Create Slipgate", "NO_PARAMETER")]),
  (58, [("Create Bastion", "NO_PARAMETER")]),
  (59, [("Create ACC", "NO_PARAMETER")])]

/-- Dictionary lookup in the objectives table. -/
def objLookup (number : Nat) : Option (List (String × String)) :=
  (objectives.find? (fun e => e.1 = number)).map (fun e => e.2)

/-- _lower_bitmask(n): OR together the bits 0 .. n-1. -/
def lower_bitmask (n : Nat) : Nat :=
  (List.range n).foldl (fun bitmask i => bitmask ||| (1 <<< i)) 0

/-- _get_objective(number, parameter): index the objectives dictionary
(raising KeyError for an unknown id), then keep the labels whose
parameter-kind matches the presence of the runtime parameter. -/
def get_objective (number : Nat) (parameter : Option Nat) :
    Except PyError (List String) :=
  match objLookup number with
  | none => .error (.keyError number)
  | some candidates =>
    match parameter with
    | none => .ok ((candidates.filter (fun c => c.2 == "NO_PARAMETER")).map (fun c => c.1))
    | some _ => .ok ((candidates.filter (fun c => c.2 != "NO_PARAMETER")).map (fun c => c.1))

/-- The player number reserved for non-player-specific messages. -/
def NONE_PLAYER : Nat := 255

/-- MessageContentType values. -/
def SET_CONFIGURATION_PARAMETER : Nat := 7
def CHRONAL_COMMANDS : Nat := 16
def SEND_TEXT : Nat := 32
def BROADCAST_TEXT : Nat := 33
def UNPAUSE_ENGINE : Nat := 37
def PAUSE_ENGINE : Nat := 38
def SAVE_GAME : Nat := 40
def SURRENDER : Nat := 41
def GLOBAL_TIME_RATE_CHANGE_REQUEST : Nat := 71

/-- The `player` argument flowing through the dispatch: either a resolved
Player instance or the raw seat number (an int in the source). -/
inductive PVal where
  | player (p : Player)
  | int (n : Nat)
  deriving DecidableEq

/-- One decoded replay message (the fields each constructor stores). -/
inductive Msg where
  | noOp (timestamp : Int)
  | newClient (timestamp : Int) (player : Player)
  | newBannedClient (timestamp : Int) (player : Player)
  | disconnected (timestamp : Int) (player : Option Player)
  | errorMessage (timestamp : Int) (player : Option Player)
  | privateChat (timestamp : Int) (player : Option Player) (recipient : Nat)
      (contents : List Char)
  | publicChat (timestamp : Int) (player : Option Player) (contents : List Char)
  | unpauseEngine (timestamp : Int) (player : Option Player)
  | pauseEngine (timestamp : Int) (player : Option Player)
  | saveGame (timestamp : Int) (player : Option Player)
  | playerSurrender (timestamp : Int) (player : Option Player)
  | globalTimeRateChange (timestamp : Int) (player : Option Player) (rateBytes : List Nat)
  | setConfigurationParameter (timestamp : Int) (player : Option Player)
      (key : List Char) (val : List Char)
  | moveTimePosition (timestamp : Int) (player : Option Player) (target_time : Nat)
  | assignUnitObjective (timestamp : Int) (player : Option Player) (unit : Nat)
      (objective : Nat) (queued : Bool) (parameter : Nat)
  | assignUnitObjectiveOnly (timestamp : Int) (player : Option Player) (unit : Nat)
      (objective : Nat) (queued : Bool)
  | markUnit (timestamp : Int) (player : Option Player) (unit : Nat)
  | undoForUnit (timestamp : Int) (player : Option Player) (unit : Nat)
      (end_time : Nat) (start_time : Int)
  | setBookmark (timestamp : Int) (player : Option Player) (bookmark_number : Nat)
  | jumpToBookmark (timestamp : Int) (player : Option Player) (bookmark_number : Nat)
  | createAlliance (timestamp : Int) (player : Option Player) (new_ally : Nat)
  | breakAlliance (timestamp : Int) (player : Option Player) (former_ally : Nat)
  | shareVision (timestamp : Int) (player : Option Player) (recipient : Nat)
  | revokeVision (timestamp : Int) (player : Option Player) (recipient : Nat)
  | shareControl (timestamp : Int) (player : Option Player) (recipient : Nat)
  | revokeControl (timestamp : Int) (player : Option Player) (recipient : Nat)
  | switchFastForward (timestamp : Int) (player : Option Player)
  | switchSlowMotion (timestamp : Int) (player : Option Player)
  | switchPause (timestamp : Int) (player : Option Player)
  | switchNormalTime (timestamp : Int) (player : Option Player)
  | reloadScripts (timestamp : Int) (player : Option Player)
  deriving DecidableEq

/-- make_replay_message yields one message, except for the command batch
content which yields a list of messages. -/
inductive MsgOut where
  | one (m : Msg)
  | many (ms : List Msg)
  deriving DecidableEq

/-- The messages carried by a MsgOut, in order. -/
def MsgOut.toList : MsgOut → List Msg
  | .one m => [m]
  | .many ms => ms

/-- BaseReplayMessage.__init__: the sentinel seat 255 yields no player and
no clock update; a genuine Player gets its clock advanced (the returned
PVal is the caller's object after this in-place mutation); any other raw
int has no clock method, so an AttributeError is raised. -/
def baseInit (timestamp : Int) (pv : PVal) : Except PyError (Option Player × PVal) :=
  match pv with
  | .int n => if n = NONE_PLAYER then .ok (none, pv) else .error .attributeError
  | .player p =>
    let p := p.update_timestamp timestamp
    .ok (some p, .player p)

/-- One command record: dispatch the command-type byte, run the selected
constructor on the remaining batch data, and report the class's declared
payload size (the amount the batch loop advances by afterwards).  Several
classes inherit the empty payload declaration of BaseCommand, so their
advance is 0 even when the constructor itself consumed bytes.  Command
types 10 and 11 are absent from the dispatch dictionary; 19 maps to None. -/
def decodeCommand (cmd : Nat) (timestamp : Int) (pv : PVal) (data : List Nat) :
    Except PyError (Msg × PVal × Nat) :=
  match cmd with
  | 0 | 1 => do
    -- MoveTimePosition (also FOLLOW_TO_TIME): exact 4-byte u32, then
    -- player.time_position is assigned on the original player argument.
    let (_, pv) ← baseInit timestamp pv
    let target ← unpackExactLE 4 data
    match pv with
    | .player p =>
      let p := { p with time_position := (target : Int) }
      .ok (.moveTimePosition timestamp (some p) target, .player p, 0)
    | .int _ => .error .attributeError
  | 2 => do
    -- AssignUnitObjective, struct "<HBI" via unpack_from
    let (pl, pv) ← baseInit timestamp pv
    if 7 ≤ data.length then
      let unit := u16At data 0
      let objective := byteAt data 2
      let parameter := u32At data 3
      .ok (.assignUnitObjective timestamp pl unit (objective &&& lower_bitmask 6)
            (objective &&& (1 <<< 7) != 0) parameter, pv, 7)
    else .error .structError
  | 3 => do
    -- AssignUnitObjectiveOnly, struct "<HB" via unpack_from
    let (pl, pv) ← baseInit timestamp pv
    if 3 ≤ data.length then
      let unit := u16At data 0
      let objective := byteAt data 2
      .ok (.assignUnitObjectiveOnly timestamp pl unit (objective &&& lower_bitmask 6)
            (objective &&& (1 <<< 7) != 0), pv, 3)
    else .error .structError
  | 4 => do
    -- MarkUnit, struct "<H" via exact unpack
    let (pl, pv) ← baseInit timestamp pv
    if data.length = 2 then .ok (.markUnit timestamp pl (u16At data 0), pv, 2)
    else .error .structError
  | 5 => do
    -- UndoForUnit (DELETE_EVENTS), struct "<HI" via unpack_from, then
    -- start_time is read from self.player.time_position
    let (pl, pv) ← baseInit timestamp pv
    if 6 ≤ data.length then
      let unit := u16At data 0
      let end_time := u32At data 2
      match pl with
      | some p => .ok (.undoForUnit timestamp (some p) unit end_time p.time_position, pv, 6)
      | none => .error .attributeError
    else .error .structError
  | 6 => do
    let (pl, pv) ← baseInit timestamp pv
    let n ← unpackExactLE 1 data
    .ok (.setBookmark timestamp pl n, pv, 1)
  | 7 => do
    let (pl, pv) ← baseInit timestamp pv
    let n ← unpackExactLE 1 data
    .ok (.jumpToBookmark timestamp pl n, pv, 1)
  | 8 => do
    let (pl, pv) ← baseInit timestamp pv
    let n ← unpackExactLE 1 data
    .ok (.createAlliance timestamp pl n, pv, 1)
  | 9 => do
    let (pl, pv) ← baseInit timestamp pv
    let n ← unpackExactLE 1 data
    .ok (.breakAlliance timestamp pl n, pv, 1)
  | 12 => do
    -- GIVE_COMMAND_ABILITY_TO_PLAYER maps to ShareControl
    let (pl, pv) ← baseInit timestamp pv
    let n ← unpackExactLE 1 data
    .ok (.shareControl timestamp pl n, pv, 1)
  | 13 => do
    -- REVOKE_COMMAND_ABILITY_FROM_PLAYER maps to RevokeControl
    let (pl, pv) ← baseInit timestamp pv
    let n ← unpackExactLE 1 data
    .ok (.revokeControl timestamp pl n, pv, 1)
  | 14 => do
    -- SwitchFastForward: assigns through self.player (None for seat 255)
    let (pl, _) ← baseInit timestamp pv
    match pl with
    | some p =>
      let p := { p with time_speed_factor := 2 }
      .ok (.switchFastForward timestamp (some p), .player p, 0)
    | none => .error .attributeError
  | 15 => do
    let (pl, _) ← baseInit timestamp pv
    match pl with
    | some p =>
      let p := { p with time_speed_factor := (1 : Rat) / 2 }
      .ok (.switchSlowMotion timestamp (some p), .player p, 0)
    | none => .error .attributeError
  | 16 => do
    let (pl, _) ← baseInit timestamp pv
    match pl with
    | some p =>
      let p := { p with time_speed_factor := 0 }
      .ok (.switchPause timestamp (some p), .player p, 0)
    | none => .error .attributeError
  | 17 => do
    let (pl, _) ← baseInit timestamp pv
    match pl with
    | some p =>
      let p := { p with time_speed_factor := 1 }
      .ok (.switchNormalTime timestamp (some p), .player p, 0)
    | none => .error .attributeError
  | 18 => do
    -- ReloadScripts: no payload
    let (pl, pv) ← baseInit timestamp pv
    .ok (.reloadScripts timestamp pl, pv, 0)
  | 19 =>
    -- DELETE_NEXT_COMMAND_AND_JUMP_TO_TIME maps to None: calling it raises
    .error .typeError
  | n + 20 => .error (.keyError (n + 20))
  | n => .error (.keyError n)

/-- The command-batch loop of make_command: decode `count` records, each a
command-type byte followed by the record body, advancing by the selected
class's declared payload size. -/
def make_commandAux (timestamp : Int) : Nat → PVal → List Nat →
    Except PyError (List Msg × PVal)
  | 0, pv, _ => .ok ([], pv)
  | count + 1, pv, data => do
    let cmd ← unpackFromLE 1 data 0
    let data := data.drop 1
    let (msg, pv, adv) ← decodeCommand cmd timestamp pv data
    let (msgs, pv) ← make_commandAux timestamp count pv (data.drop adv)
    .ok (msg :: msgs, pv)

/-- make_command: a one-byte record count followed by that many command
records consumed sequentially. -/
def make_command (timestamp : Int) (pv : PVal) (data : List Nat) :
    Except PyError (List Msg × PVal) := do
  let count ← unpackFromLE 1 data 0
  make_commandAux timestamp count pv (data.drop 1)

/-- make_message: dispatch on the content-type tag of a MESSAGE envelope.
An unknown tag is a dictionary miss carrying the tag value. -/
def make_message (timestamp : Int) (message : Nat) (pv : PVal) (data : List Nat) :
    Except PyError (MsgOut × PVal) :=
  if message = CHRONAL_COMMANDS then do
    let (msgs, pv) ← make_command timestamp pv data
    .ok (.many msgs, pv)
  else if message = SEND_TEXT then do
    -- PrivateChatMessage
    let (pl, pv) ← baseInit timestamp pv
    let recipient ← unpackFromLE 1 data 0
    let contents ← asciiDecode (data.drop 1)
    .ok (.one (.privateChat timestamp pl recipient (pyStrip contents)), pv)
  else if message = BROADCAST_TEXT then do
    -- PublicChatMessage
    let (pl, pv) ← baseInit timestamp pv
    let contents ← asciiDecode data
    .ok (.one (.publicChat timestamp pl (pyStrip contents)), pv)
  else if message = UNPAUSE_ENGINE then do
    let (pl, pv) ← baseInit timestamp pv
    .ok (.one (.unpauseEngine timestamp pl), pv)
  else if message = PAUSE_ENGINE then do
    let (pl, pv) ← baseInit timestamp pv
    .ok (.one (.pauseEngine timestamp pl), pv)
  else if message = SAVE_GAME then do
    let (pl, pv) ← baseInit timestamp pv
    .ok (.one (.saveGame timestamp pl), pv)
  else if message = SURRENDER then do
    let (pl, pv) ← baseInit timestamp pv
    .ok (.one (.playerSurrender timestamp pl), pv)
  else if message = GLOBAL_TIME_RATE_CHANGE_REQUEST then do
    -- GlobalTimeRateChange: exact 4-byte float payload, kept as raw bytes
    let (pl, pv) ← baseInit timestamp pv
    if data.length = 4 then .ok (.one (.globalTimeRateChange timestamp pl data), pv)
    else .error .structError
  else if message = SET_CONFIGURATION_PARAMETER then do
    let (pl, pv) ← baseInit timestamp pv
    let (key, offset) ← read_string 1 data 0
    let val ← asciiDecode (data.drop offset)
    .ok (.one (.setConfigurationParameter timestamp pl key val), pv)
  else .error (.keyError message)

/-- make_replay_message: dispatch on the message-type tag.  An unknown tag
is a dictionary miss carrying the tag value.  The returned PVal is the
caller's player argument after any in-place mutation (a NEW_CLIENT or
NEW_BANNED_CLIENT envelope that builds a fresh Player hands it over inside
the message instead). -/
def make_replay_message (timestamp : Int) (msg_type : Nat) (message : Nat)
    (pv : PVal) (data : List Nat) : Except PyError (MsgOut × PVal) :=
  match msg_type with
  | 0 =>
    -- NoOpMessage stores only the timestamp and never touches the player
    .ok (.one (.noOp timestamp), pv)
  | 1 => make_message timestamp message pv data
  | 2 =>
    -- NewClientMessage: wrap a raw seat in a fresh Player, then BaseReplayMessage
    match pv with
    | .player p =>
      let p := p.update_timestamp timestamp
      .ok (.one (.newClient timestamp p), .player p)
    | .int n => do
      let name ← asciiDecode data
      let p := (Player.make n name).update_timestamp timestamp
      .ok (.one (.newClient timestamp p), .int n)
  | 3 => do
    -- NewBannedClientMessage: always builds a fresh Player from the seat.
    -- (When the seat resolves to an existing Player the source stores that
    -- object itself as the new Player's seat; only its seat number is
    -- observable here, and no decoded stream reaches that case.)
    let name ← asciiDecode data
    let seatN := match pv with | .int n => n | .player p => p.seat
    let p := (Player.make seatN name).update_timestamp timestamp
    .ok (.one (.newBannedClient timestamp p), pv)
  | 4 => do
    let (pl, pv) ← baseInit timestamp pv
    .ok (.one (.disconnected timestamp pl), pv)
  | 5 => do
    let (pl, pv) ← baseInit timestamp pv
    .ok (.one (.errorMessage timestamp pl), pv)
  | n + 6 => .error (.keyError (n + 6))

/-- One raw envelope of the body stream. -/
structure RawEnvelope where
  timestamp : Nat
  msg_type : Nat
  message : Nat
  seat : Nat
  params : List Nat
  deriving DecidableEq

/-- One iteration step of Replay.raw_messages: the fixed "<I3B" header via
unpack_from, then the u32-length-prefixed parameter block. -/
def rawStep (data : List Nat) (offset : Nat) :
    Except PyError (RawEnvelope × Nat) := do
  if offset + 7 ≤ data.length then
    let timestamp := u32At data offset
    let msg_type := byteAt data (offset + 4)
    let message := byteAt data (offset + 5)
    let seat := byteAt data (offset + 6)
    let (params, offset) ← readLengthPrefixedField 4 data (offset + 7)
    .ok (⟨timestamp, msg_type, message, seat, params⟩, offset)
  else .error .structError

/-- Replay.raw_messages, driven by fuel (each iteration advances the offset
by at least 11, so `data.length + 1` iterations always suffice). -/
def rawMessagesAux (data : List Nat) : Nat → Nat → Except PyError (List RawEnvelope)
  | 0, _ => .ok []
  | fuel + 1, offset =>
    if offset < data.length then do
      let (env, offset) ← rawStep data offset
      let rest ← rawMessagesAux data fuel offset
      .ok (env :: rest)
    else .ok []

/-- Replay.raw_messages from a given base offset (the body of the replay,
after the header). -/
def raw_messages (data : List Nat) (baseOffset : Nat) : Except PyError (List RawEnvelope) :=
  rawMessagesAux data (data.length + 1) baseOffset

/-- dict.get on the seat map. -/
def mapGet (m : List (Nat × Player)) (k : Nat) : Option Player :=
  match m with
  | [] => none
  | (k2, v) :: rest => if k2 = k then some v else mapGet rest k

/-- dict item assignment on the seat map. -/
def mapSet (m : List (Nat × Player)) (k : Nat) (v : Player) : List (Nat × Player) :=
  match m with
  | [] => [(k, v)]
  | (k2, v2) :: rest => if k2 = k then (k, v) :: rest else (k2, v2) :: mapSet rest k v

/-- del on the seat map: KeyError when the key is absent. -/
def mapDel (m : List (Nat × Player)) (k : Nat) : Except PyError (List (Nat × Player)) :=
  match m with
  | [] => .error (.keyError k)
  | (k2, v2) :: rest =>
    if k2 = k then .ok rest
    else do
      let rest ← mapDel rest k
      .ok ((k2, v2) :: rest)

/-- The body of Replay.messages over an already-read envelope list: resolve
the seat (falling back to the raw seat number), decode, write the mutated
player back, insert on NewClientMessage, delete on DisconnectedMessage,
and flatten command batches into the output in order. -/
def messagesFrom : List RawEnvelope → List (Nat × Player) → Except PyError (List Msg)
  | [], _ => .ok []
  | e :: rest, seatMap => do
    let fromMap := mapGet seatMap e.seat
    let pv : PVal := match fromMap with
      | some p => .player p
      | none => .int e.seat
    let (out, pvOut) ← make_replay_message (e.timestamp : Int) e.msg_type e.message pv e.params
    -- in-place mutation of a mapped Player is visible through the map
    let map1 := match fromMap, pvOut with
      | some _, .player p2 => mapSet seatMap e.seat p2
      | _, _ => seatMap
    let map2 := match out with
      | .one (.newClient _ p) => mapSet map1 e.seat p
      | _ => map1
    let map3 ← match out with
      | .one (.disconnected _ _) => mapDel map2 e.seat
      | _ => .ok map2
    let tail ← messagesFrom rest map3
    .ok (out.toList ++ tail)

/-- Replay.messages: decode the raw envelope stream, then thread the seat
map through the message stream. -/
def messages (data : List Nat) (baseOffset : Nat) : Except PyError (List Msg) := do
  let envs ← raw_messages data baseOffset
  messagesFrom envs []

/-- Whether a decoded message carries no player (either it has no player
field at all, or the field is the resolved "no player" value None). -/
def Msg.playerIsNone : Msg → Bool
  | .noOp _ => true
  | .newClient _ _ => false
  | .newBannedClient _ _ => false
  | .disconnected _ pl => pl.isNone
  | .errorMessage _ pl => pl.isNone
  | .privateChat _ pl _ _ => pl.isNone
  | .publicChat _ pl _ => pl.isNone
  | .unpauseEngine _ pl => pl.isNone
  | .pauseEngine _ pl => pl.isNone
  | .saveGame _ pl => pl.isNone
  | .playerSurrender _ pl => pl.isNone
  | .globalTimeRateChange _ pl _ => pl.isNone
  | .setConfigurationParameter _ pl _ _ => pl.isNone
  | .moveTimePosition _ pl _ => pl.isNone
  | .assignUnitObjective _ pl _ _ _ _ => pl.isNone
  | .assignUnitObjectiveOnly _ pl _ _ _ => pl.isNone
  | .markUnit _ pl _ => pl.isNone
  | .undoForUnit _ pl _ _ _ => pl.isNone
  | .setBookmark _ pl _ => pl.isNone
  | .jumpToBookmark _ pl _ => pl.isNone
  | .createAlliance _ pl _ => pl.isNone
  | .breakAlliance _ pl _ => pl.isNone
  | .shareVision _ pl _ => pl.isNone
  | .revokeVision _ pl _ => pl.isNone
  | .shareControl _ pl _ => pl.isNone
  | .revokeControl _ pl _ => pl.isNone
  | .switchFastForward _ pl => pl.isNone
  | .switchSlowMotion _ pl => pl.isNone
  | .switchPause _ pl => pl.isNone
  | .switchNormalTime _ pl => pl.isNone
  | .reloadScripts _ pl => pl.isNone

/-! ## Helper lemmas -/

/-- With the sentinel seat 255, BaseReplayMessage yields no player and
leaves the argument untouched. -/
theorem baseInit_sentinel (ts : Int) : baseInit ts (.int 255) = .ok (none, .int 255) := rfl

/-- Bit test written with a mask equals bit test written with a shift. -/
theorem and_shift_eq_decide (v i : Nat) :
    (v &&& (1 <<< i) != 0) = decide ((v >>> i) &&& 1 = 1) := by
  rw [Nat.one_shiftLeft, Nat.and_two_pow]
  have hr : decide ((v >>> i) &&& 1 = 1) = v.testBit i := by
    rw [Nat.and_one_is_mod, Nat.shiftRight_eq_div_pow, Nat.testBit_to_div_mod]
  rw [hr]
  rcases hb : v.testBit i
  · simp
  · simp [Nat.pow_eq_zero]

/-- Stripping a string of pure whitespace leaves nothing. -/
theorem pyStrip_all_space (cs : List Char) (h : cs.all isPySpace) : pyStrip cs = [] := by
  unfold pyStrip
  have h1 : cs.dropWhile isPySpace = [] := by
    rw [List.dropWhile_eq_nil_iff]
    intro x hx
    exact List.all_eq_true.mp h x hx
  rw [h1]
  simp

/-- Deleting an absent key raises KeyError. -/
theorem mapDel_of_get_none (m : List (Nat × Player)) (k : Nat)
    (h : mapGet m k = none) : mapDel m k = .error (.keyError k) := by
  induction m with
  | nil => rfl
  | cons e rest ih =>
    obtain ⟨k2, v⟩ := e
    unfold mapGet at h
    unfold mapDel
    by_cases hk : k2 = k
    · simp [hk] at h
    · simp only [if_neg hk] at h ⊢
      rw [ih h]
      rfl

/-- A command record decoded with the sentinel player either fails or yields
a message without player, leaving the sentinel untouched. -/
theorem decodeCommand_sentinel (cmd : Nat) (ts : Int) (data : List Nat)
    (msg : Msg) (pv : PVal) (adv : Nat)
    (h : decodeCommand cmd ts (.int 255) data = .ok (msg, pv, adv)) :
    pv = .int 255 ∧ msg.playerIsNone = true := by
  rcases cmd with _|_|_|_|_|_|_|_|_|_|_|_|_|_|_|_|_|_|_|_|n
  · cases hu : unpackExactLE 4 data <;>
      simp [decodeCommand, baseInit, NONE_PLAYER, hu, Bind.bind, Except.bind] at h
  · cases hu : unpackExactLE 4 data <;>
      simp [decodeCommand, baseInit, NONE_PLAYER, hu, Bind.bind, Except.bind] at h
  · by_cases hd : 7 ≤ data.length <;>
      simp [decodeCommand, baseInit, NONE_PLAYER, hd, Bind.bind, Except.bind] at h
    obtain ⟨h1, h2, h3⟩ := h
    subst h1; subst h2
    simp [Msg.playerIsNone]
  · by_cases hd : 3 ≤ data.length <;>
      simp [decodeCommand, baseInit, NONE_PLAYER, hd, Bind.bind, Except.bind] at h
    obtain ⟨h1, h2, h3⟩ := h
    subst h1; subst h2
    simp [Msg.playerIsNone]
  · by_cases hd : data.length = 2 <;>
      simp [decodeCommand, baseInit, NONE_PLAYER, hd, Bind.bind, Except.bind] at h
    obtain ⟨h1, h2, h3⟩ := h
    subst h1; subst h2
    simp [Msg.playerIsNone]
  · by_cases hd : 6 ≤ data.length <;>
      simp [decodeCommand, baseInit, NONE_PLAYER, hd, Bind.bind, Except.bind] at h
  · cases hu : unpackExactLE 1 data <;>
      simp [decodeCommand, baseInit, NONE_PLAYER, hu, Bind.bind, Except.bind] at h
    obtain ⟨h1, h2, h3⟩ := h
    subst h1; subst h2
    simp [Msg.playerIsNone]
  · cases hu : unpackExactLE 1 data <;>
      simp [decodeCommand, baseInit, NONE_PLAYER, hu, Bind.bind, Except.bind] at h
    obtain ⟨h1, h2, h3⟩ := h
    subst h1; subst h2
    simp [Msg.playerIsNone]
  · cases hu : unpackExactLE 1 data <;>
      simp [decodeCommand, baseInit, NONE_PLAYER, hu, Bind.bind, Except.bind] at h
    obtain ⟨h1, h2, h3⟩ := h
    subst h1; subst h2
    simp [Msg.playerIsNone]
  · cases hu : unpackExactLE 1 data <;>
      simp [decodeCommand, baseInit, NONE_PLAYER, hu, Bind.bind, Except.bind] at h
    obtain ⟨h1, h2, h3⟩ := h
    subst h1; subst h2
    simp [Msg.playerIsNone]
  · simp [decodeCommand] at h
  · simp [decodeCommand] at h
  · cases hu : unpackExactLE 1 data <;>
      simp [decodeCommand, baseInit, NONE_PLAYER, hu, Bind.bind, Except.bind] at h
    obtain ⟨h1, h2, h3⟩ := h
    subst h1; subst h2
    simp [Msg.playerIsNone]
  · cases hu : unpackExactLE 1 data <;>
      simp [decodeCommand, baseInit, NONE_PLAYER, hu, Bind.bind, Except.bind] at h
    obtain ⟨h1, h2, h3⟩ := h
    subst h1; subst h2
    simp [Msg.playerIsNone]
  · simp [decodeCommand, baseInit, NONE_PLAYER, Bind.bind, Except.bind] at h
  · simp [decodeCommand, baseInit, NONE_PLAYER, Bind.bind, Except.bind] at h
  · simp [decodeCommand, baseInit, NONE_PLAYER, Bind.bind, Except.bind] at h
  · simp [decodeCommand, baseInit, NONE_PLAYER, Bind.bind, Except.bind] at h
  · simp [decodeCommand, baseInit, NONE_PLAYER, Bind.bind, Except.bind] at h
    obtain ⟨h1, h2, h3⟩ := h
    subst h1; subst h2
    simp [Msg.playerIsNone]
  · simp [decodeCommand] at h
  · simp [decodeCommand] at h
/-- A command batch decoded with the sentinel player either fails or yields
only player-less messages, leaving the sentinel untouched. -/
theorem make_commandAux_sentinel : ∀ (count : Nat) (ts : Int) (data : List Nat)
    (msgs : List Msg) (pv : PVal),
    make_commandAux ts count (.int 255) data = .ok (msgs, pv) →
    pv = .int 255 ∧ ∀ msg ∈ msgs, msg.playerIsNone = true := by
  intro count
  induction count with
  | zero =>
    intro ts data msgs pv h
    simp [make_commandAux] at h
    obtain ⟨h1, h2⟩ := h
    subst h1; subst h2
    exact ⟨rfl, by simp⟩
  | succ k ih =>
    intro ts data msgs pv h
    simp only [make_commandAux, Bind.bind, Except.bind] at h
    split at h
    · simp at h
    · rename_i cmd hu
      split at h
      · simp at h
      · rename_i res hdc
        obtain ⟨msg1, pv1, adv⟩ := res
        split at h
        · simp at h
        · rename_i res2 hrec
          obtain ⟨msgs2, pv2⟩ := res2
          simp only [Except.ok.injEq, Prod.mk.injEq] at h
          obtain ⟨rfl, rfl⟩ := h
          obtain ⟨hpv1, hmsg1⟩ := decodeCommand_sentinel _ _ _ _ _ _ hdc
          subst hpv1
          obtain ⟨hpv2, hmsgs2⟩ := ih _ _ _ _ hrec
          refine ⟨hpv2, ?_⟩
          intro msg hmsg
          rcases List.mem_cons.mp hmsg with rfl | hmem
          · exact hmsg1
          · exact hmsgs2 msg hmem

/-- A MESSAGE envelope decoded with the sentinel player either fails or
yields only player-less messages, leaving the sentinel untouched. -/
theorem make_message_sentinel (ts : Int) (m : Nat) (data : List Nat)
    (out : MsgOut) (pv : PVal)
    (h : make_message ts m (.int 255) data = .ok (out, pv)) :
    pv = .int 255 ∧ ∀ msg ∈ out.toList, msg.playerIsNone = true := by
  unfold make_message at h
  by_cases h16 : m = CHRONAL_COMMANDS
  · rw [if_pos h16] at h
    simp only [Bind.bind, Except.bind] at h
    split at h
    · simp at h
    · rename_i res hmc
      obtain ⟨msgs, pv1⟩ := res
      simp only [Except.ok.injEq, Prod.mk.injEq] at h
      obtain ⟨rfl, rfl⟩ := h
      simp only [make_command, Bind.bind, Except.bind] at hmc
      split at hmc
      · simp at hmc
      · rename_i cnt hcnt
        obtain ⟨hpv, hmsgs⟩ := make_commandAux_sentinel _ _ _ _ _ hmc
        exact ⟨hpv, by simpa [MsgOut.toList] using hmsgs⟩
  rw [if_neg h16] at h
  by_cases h32 : m = SEND_TEXT
  · rw [if_pos h32] at h
    simp only [baseInit_sentinel, Bind.bind, Except.bind] at h
    split at h
    · simp at h
    · rename_i recip hrecip
      split at h
      · simp at h
      · rename_i cs hcs
        simp only [Except.ok.injEq, Prod.mk.injEq] at h
        obtain ⟨rfl, rfl⟩ := h
        exact ⟨rfl, by simp [MsgOut.toList, Msg.playerIsNone]⟩
  rw [if_neg h32] at h
  by_cases h33 : m = BROADCAST_TEXT
  · rw [if_pos h33] at h
    simp only [baseInit_sentinel, Bind.bind, Except.bind] at h
    split at h
    · simp at h
    · rename_i cs hcs
      simp only [Except.ok.injEq, Prod.mk.injEq] at h
      obtain ⟨rfl, rfl⟩ := h
      exact ⟨rfl, by simp [MsgOut.toList, Msg.playerIsNone]⟩
  rw [if_neg h33] at h
  by_cases h37 : m = UNPAUSE_ENGINE
  · rw [if_pos h37] at h
    simp only [baseInit_sentinel, Bind.bind, Except.bind] at h
    simp only [Except.ok.injEq, Prod.mk.injEq] at h
    obtain ⟨rfl, rfl⟩ := h
    exact ⟨rfl, by simp [MsgOut.toList, Msg.playerIsNone]⟩
  rw [if_neg h37] at h
  by_cases h38 : m = PAUSE_ENGINE
  · rw [if_pos h38] at h
    simp only [baseInit_sentinel, Bind.bind, Except.bind] at h
    simp only [Except.ok.injEq, Prod.mk.injEq] at h
    obtain ⟨rfl, rfl⟩ := h
    exact ⟨rfl, by simp [MsgOut.toList, Msg.playerIsNone]⟩
  rw [if_neg h38] at h
  by_cases h40 : m = SAVE_GAME
  · rw [if_pos h40] at h
    simp only [baseInit_sentinel, Bind.bind, Except.bind] at h
    simp only [Except.ok.injEq, Prod.mk.injEq] at h
    obtain ⟨rfl, rfl⟩ := h
    exact ⟨rfl, by simp [MsgOut.toList, Msg.playerIsNone]⟩
  rw [if_neg h40] at h
  by_cases h41 : m = SURRENDER
  · rw [if_pos h41] at h
    simp only [baseInit_sentinel, Bind.bind, Except.bind] at h
    simp only [Except.ok.injEq, Prod.mk.injEq] at h
    obtain ⟨rfl, rfl⟩ := h
    exact ⟨rfl, by simp [MsgOut.toList, Msg.playerIsNone]⟩
  rw [if_neg h41] at h
  by_cases h71 : m = GLOBAL_TIME_RATE_CHANGE_REQUEST
  · rw [if_pos h71] at h
    simp only [baseInit_sentinel, Bind.bind, Except.bind] at h
    split at h
    · simp only [Except.ok.injEq, Prod.mk.injEq] at h
      obtain ⟨rfl, rfl⟩ := h
      exact ⟨rfl, by simp [MsgOut.toList, Msg.playerIsNone]⟩
    · simp at h
  rw [if_neg h71] at h
  by_cases h7 : m = SET_CONFIGURATION_PARAMETER
  · rw [if_pos h7] at h
    simp only [baseInit_sentinel, Bind.bind, Except.bind] at h
    split at h
    · simp at h
    · rename_i res hrs
      obtain ⟨key, offset⟩ := res
      split at h
      · simp at h
      · rename_i val hval
        simp only [Except.ok.injEq, Prod.mk.injEq] at h
        obtain ⟨rfl, rfl⟩ := h
        exact ⟨rfl, by simp [MsgOut.toList, Msg.playerIsNone]⟩
  rw [if_neg h7] at h
  simp at h

/-- Claim C5, amended: for every envelope carrying seat 255 that is decoded
with the raw sentinel value (seat 255 not currently in the seat-to-player
map, so the dispatch receives the int 255 itself) and whose message-type is
not NEW_CLIENT and not NEW_BANNED_CLIENT, decoding never creates or mutates
any Player state (the sentinel is returned untouched) and every yielded
message resolves to "no player".  NEW_CLIENT and NEW_BANNED_CLIENT
envelopes with seat 255, by contrast, create a Player and advance its
clock, and NEW_CLIENT inserts it into the seat map, after which later
seat-255 envelopes of any message-type resolve to that Player and mutate
its clock (see the counterexample for both effects). -/
theorem C5_amended_sentinel_seat (mt : Nat) (hmt2 : mt ≠ 2) (hmt3 : mt ≠ 3) (ts : Int) (m : Nat)
    (data : List Nat) (out : MsgOut) (pv' : PVal)
    (hok : make_replay_message ts mt m (.int 255) data = .ok (out, pv')) :
    pv' = .int 255 ∧ ∀ msg ∈ out.toList, msg.playerIsNone = true := by
  rcases mt with _|_|_|_|_|_|n
  · simp only [make_replay_message, Except.ok.injEq, Prod.mk.injEq] at hok
    obtain ⟨rfl, rfl⟩ := hok
    exact ⟨rfl, by simp [MsgOut.toList, Msg.playerIsNone]⟩
  · exact make_message_sentinel ts m data out pv' hok
  · exact absurd rfl hmt2
  · exact absurd rfl hmt3
  · simp only [make_replay_message, baseInit_sentinel, Bind.bind, Except.bind,
      Except.ok.injEq, Prod.mk.injEq] at hok
    obtain ⟨rfl, rfl⟩ := hok
    exact ⟨rfl, by simp [MsgOut.toList, Msg.playerIsNone]⟩
  · simp only [make_replay_message, baseInit_sentinel, Bind.bind, Except.bind,
      Except.ok.injEq, Prod.mk.injEq] at hok
    obtain ⟨rfl, rfl⟩ := hok
    exact ⟨rfl, by simp [MsgOut.toList, Msg.playerIsNone]⟩
  · simp [make_replay_message] at hok

/-- Claim C5, counterexample: a NEW_CLIENT envelope carrying seat 255
creates a Player (seat 255, name "A") and mutates its clock fields
(time_position becomes 5 and last_timestamp 10 for wall timestamp 10), and
the yielded message resolves to that Player, not to "no player".
Moreover, in a stream, the created Player is inserted into the seat map, so
a later seat-255 envelope that is NOT a NEW_CLIENT (here a public chat at
wall timestamp 4) also resolves to that Player and advances its clock
(time_position 2, last_timestamp 4), again contradicting the claim's
"regardless of its message-type". -/
theorem C5_counterexample :
    (make_replay_message 10 2 0 (.int 255) [65]
      = .ok (.one (.newClient 10 ⟨255, ['A'], 5, 10, 1⟩), .int 255))
    ∧ (messagesFrom [⟨0, 2, 0, 255, [65]⟩, ⟨4, 1, 33, 255, [104, 105]⟩] []
      = .ok [.newClient 0 ⟨255, ['A'], 0, 0, 1⟩,
             .publicChat 4 (some ⟨255, ['A'], 2, 4, 1⟩) ['h', 'i']]) := by
  constructor
  · simp [make_replay_message, asciiDecode, Player.update_timestamp_eval, Player.make]
    decide
  · simp [messagesFrom, make_replay_message, make_message, baseInit, mapGet, mapSet, mapDel,
      asciiDecode, pyStrip, isPySpace, Player.update_timestamp_eval, Player.make,
      MsgOut.toList, Bind.bind, Except.bind, unpackFromLE, bytesToNatLE, CHRONAL_COMMANDS,
      SEND_TEXT, BROADCAST_TEXT, UNPAUSE_ENGINE, PAUSE_ENGINE, SAVE_GAME, SURRENDER,
      GLOBAL_TIME_RATE_CHANGE_REQUEST, SET_CONFIGURATION_PARAMETER, NONE_PLAYER,
      Rat.num_ofNat, Rat.den_ofNat]
    decide

theorem C5_amended_sentinel_seat_witness :
    PVal.int 255 = PVal.int 255
      ∧ ∀ msg ∈ (MsgOut.one (.disconnected 0 none)).toList, msg.playerIsNone = true :=
  C5_amended_sentinel_seat 4 (by decide) (by decide) 0 0 [] (.one (.disconnected 0 none))
    (.int 255) (by decide)

/-- Claim C1: advance(timestamp) adds the truncation toward zero of
(timestamp - last_timestamp) / 2 * time_speed_factor to time_position and
sets last_timestamp; with the default factor 1, advance(0) then advance(36)
yields 18; with factor 2 the same deltas accumulate to 36; with factor 0
the position never moves, whatever the elapsed ticks. -/
theorem C1_player_clock_advance :
    (∀ (p : Player) (t : Int),
      (p.update_timestamp t).time_position
          = p.time_position
              + ratTrunc (((t : Rat) - (p.last_timestamp : Rat)) / 2 * p.time_speed_factor)
        ∧ (p.update_timestamp t).last_timestamp = t)
    ∧ ((((Player.make 0 []).update_timestamp 0).update_timestamp 36).time_position = 18)
    ∧ (((({ Player.make 0 [] with time_speed_factor := 2 }).update_timestamp 0).update_timestamp
          36).time_position = 36)
    ∧ (∀ t1 t2 : Int,
        ((({ Player.make 0 [] with time_speed_factor := 0 }).update_timestamp t1).update_timestamp
            t2).time_position
          = ({ Player.make 0 [] with time_speed_factor := 0 } : Player).time_position) := by
  refine ⟨fun p t => ⟨rfl, rfl⟩, ?_, ?_, ?_⟩
  · simp [Player.update_timestamp_eval, Player.make]
    decide
  · simp [Player.update_timestamp_eval, Player.make]
    decide
  · intro t1 t2
    simp [Player.update_timestamp_eval, Player.make]

/-- Claim C2, counterexample: an envelope whose u32 parameter length
prefix (5) exceeds the remaining bytes (2) does NOT fail with a Truncated
error: decoding succeeds and yields a record whose parameter block was
silently shortened to the 2 remaining bytes. -/
theorem C2_counterexample :
    raw_messages [0, 0, 0, 0, 0, 0, 0, 5, 0, 0, 0, 1, 2] 0
      = .ok [⟨0, 0, 0, 0, [1, 2]⟩] := by decide

/-- Claim C2, amended: when the declared parameter length exceeds the
bytes remaining in the buffer, the Python slice clamps: the field returned
is exactly the remaining suffix of the buffer (so no memory outside the
buffer is ever read), shorter than declared, and no error is raised. -/
theorem C2_amended_clamped_read (lenSize : Nat) (data : List Nat) (offset length : Nat)
    (hL : unpackFromLE lenSize data offset = .ok length)
    (hover : data.length < offset + lenSize + length) :
    readLengthPrefixedField lenSize data offset
        = .ok (data.drop (offset + lenSize), offset + lenSize + length)
      ∧ (data.drop (offset + lenSize)).length < length := by
  have hle : offset + lenSize ≤ data.length := by
    unfold unpackFromLE at hL
    by_cases hg : offset + lenSize ≤ data.length
    · exact hg
    · rw [if_neg hg] at hL
      exact absurd hL (by simp)
  have hdroplen : (data.drop (offset + lenSize)).length = data.length - (offset + lenSize) :=
    List.length_drop _ _
  constructor
  · simp only [readLengthPrefixedField, Bind.bind, Except.bind, hL]
    rw [List.take_of_length_le (by rw [hdroplen]; omega)]
  · rw [hdroplen]
    omega

theorem C2_amended_clamped_read_witness :
    readLengthPrefixedField 4 [5, 0, 0, 0, 1, 2] 0 = .ok ([1, 2], 9) := by
  have h := (C2_amended_clamped_read 4 [5, 0, 0, 0, 1, 2] 0 5 (by decide) (by decide)).1
  simpa using h

/-- Claim C3: an unrecognized message-type tag (6 or above), content-type
tag (outside the nine known values), or command-type tag (one with no
dispatch entry) makes decoding fail with a dictionary-miss error carrying
the offending numeric tag value; in particular a command batch whose record
carries an out-of-range command byte fails with that byte's value, and no
record is silently skipped. -/
theorem C3_unknown_tag_error :
    (∀ mt, 6 ≤ mt → ∀ (ts : Int) (m : Nat) (pv : PVal) (data : List Nat),
      make_replay_message ts mt m pv data = .error (.keyError mt))
    ∧ (∀ ct, ct ∉ ([SET_CONFIGURATION_PARAMETER, CHRONAL_COMMANDS, SEND_TEXT, BROADCAST_TEXT,
          UNPAUSE_ENGINE, PAUSE_ENGINE, SAVE_GAME, SURRENDER,
          GLOBAL_TIME_RATE_CHANGE_REQUEST] : List Nat) →
        ∀ (ts : Int) (pv : PVal) (data : List Nat),
          make_message ts ct pv data = .error (.keyError ct))
    ∧ (∀ cmd, cmd = 10 ∨ cmd = 11 ∨ 20 ≤ cmd →
        ∀ (ts : Int) (pv : PVal) (data : List Nat),
          decodeCommand cmd ts pv data = .error (.keyError cmd))
    ∧ (∀ cmd rest, 20 ≤ cmd → ∀ (ts : Int) (pv : PVal),
        make_command ts pv (1 :: cmd :: rest) = .error (.keyError cmd)) := by
  refine ⟨?_, ?_, ?_, ?_⟩
  · intro mt hmt ts m pv data
    obtain ⟨k, rfl⟩ := Nat.exists_eq_add_of_le' hmt
    rfl
  · intro ct hct ts pv data
    simp only [List.mem_cons, List.not_mem_nil, or_false, not_or] at hct
    obtain ⟨h7, h16, h32, h33, h37, h38, h40, h41, h71⟩ := hct
    unfold make_message
    rw [if_neg h16, if_neg h32, if_neg h33, if_neg h37, if_neg h38, if_neg h40,
      if_neg h41, if_neg h71, if_neg h7]
  · intro cmd hc ts pv data
    rcases hc with rfl | rfl | hge
    · rfl
    · rfl
    · obtain ⟨k, rfl⟩ := Nat.exists_eq_add_of_le' hge
      rfl
  · intro cmd rest hge ts pv
    obtain ⟨k, rfl⟩ := Nat.exists_eq_add_of_le' hge
    simp [make_command, make_commandAux, decodeCommand, unpackFromLE, bytesToNatLE,
      Bind.bind, Except.bind]

theorem C3_unknown_tag_error_witness :
    make_replay_message 0 6 0 (.int 0) [] = .error (.keyError 6)
    ∧ make_message 0 70 (.int 0) [] = .error (.keyError 70)
    ∧ decodeCommand 10 0 (.int 0) [] = .error (.keyError 10)
    ∧ make_command 0 (.int 0) [1, 20] = .error (.keyError 20) :=
  ⟨C3_unknown_tag_error.1 6 (by decide) 0 0 (.int 0) [],
   C3_unknown_tag_error.2.1 70 (by decide) 0 (.int 0) [],
   C3_unknown_tag_error.2.2.1 10 (Or.inl rfl) 0 (.int 0) [],
   C3_unknown_tag_error.2.2.2 20 [] (by decide) 0 (.int 0)⟩

/-- Claim C4 (code bug): command tags 12 and 13 decode to ShareControl and
RevokeControl consuming a one-byte seat payload as claimed, but tags 10 and
11 - the GIVE/REVOKE_VISIBILITY commands whose ShareVision and RevokeVision
classes exist in the source - are missing from the dispatch dictionary, so
a batch containing them raises KeyError instead of decoding. -/
theorem C4_vision_commands_not_dispatched :
    make_command 0 (.player (Player.make 1 [])) [1, 10, 5] = .error (.keyError 10)
    ∧ make_command 0 (.player (Player.make 1 [])) [1, 11, 5] = .error (.keyError 11)
    ∧ make_command 0 (.player (Player.make 1 [])) [1, 12, 5]
        = .ok ([.shareControl 0 (some (Player.make 1 [])) 5], .player (Player.make 1 []))
    ∧ make_command 0 (.player (Player.make 1 [])) [1, 13, 5]
        = .ok ([.revokeControl 0 (some (Player.make 1 [])) 5], .player (Player.make 1 [])) := by
  refine ⟨?_, ?_, ?_, ?_⟩ <;>
    simp [make_command, make_commandAux, decodeCommand, baseInit, Player.update_timestamp_eval,
      Bind.bind, Except.bind, unpackFromLE, unpackExactLE, bytesToNatLE, u16At, byteAt,
      Player.make, Rat.num_ofNat, Rat.den_ofNat]

/-- Claim C6 (code bug): a batch with one MarkUnit record decodes, but a
well-formed batch of two MarkUnit records fails: MarkUnit (like most
fixed-size commands) parses with strict struct.unpack, which demands that
the *entire* remaining batch buffer be exactly its payload size, so any
strict-unpack command followed by further records raises struct.error. -/
theorem C6_batch_strict_unpack :
    make_command 0 (.player (Player.make 1 [])) [2, 4, 0, 0, 4, 1, 0] = .error .structError
    ∧ make_command 0 (.player (Player.make 1 [])) [1, 4, 7, 0]
        = .ok ([.markUnit 0 (some (Player.make 1 [])) 7], .player (Player.make 1 [])) := by
  refine ⟨?_, ?_⟩ <;>
    simp [make_command, make_commandAux, decodeCommand, baseInit, Player.update_timestamp_eval,
      Bind.bind, Except.bind, unpackFromLE, unpackExactLE, bytesToNatLE, u16At, byteAt,
      Player.make, Rat.num_ofNat, Rat.den_ofNat]

/-- Claim C7, counterexample: looking up an objective id absent from the
table (60) raises KeyError rather than returning the empty list. -/
theorem C7_counterexample : get_objective 60 none = .error (.keyError 60) := by decide

/-- Claim C7, amended: for a known objective id, lookup with no runtime
parameter returns the labels of the entries whose kind is NO_PARAMETER and
lookup with a parameter returns the labels of all other entries; an unknown
id raises KeyError (it does not fail softly with an empty list). -/
theorem C7_amended_objective_lookup :
    (∀ (number : Nat) (cs : List (String × String)), objLookup number = some cs →
      get_objective number none
          = .ok ((cs.filter (fun c => c.2 == "NO_PARAMETER")).map (fun c => c.1))
        ∧ ∀ param : Nat, get_objective number (some param)
            = .ok ((cs.filter (fun c => c.2 != "NO_PARAMETER")).map (fun c => c.1)))
    ∧ (∀ number : Nat, objLookup number = none →
        ∀ param : Option Nat, get_objective number param = .error (.keyError number)) := by
  constructor
  · intro n cs hcs
    unfold get_objective
    rw [hcs]
    exact ⟨rfl, fun _ => rfl⟩
  · intro n hn param
    unfold get_objective
    rw [hn]

theorem C7_amended_objective_lookup_witness :
    get_objective 0 none = .ok ["Defend", "Idle"]
      ∧ get_objective 61 none = .error (.keyError 61) := by
  constructor
  · have h := (C7_amended_objective_lookup.1 0
      [("Defend", "NO_PARAMETER"), ("Idle", "NO_PARAMETER")] (by decide)).1
    simpa using h
  · exact C7_amended_objective_lookup.2 61 (by decide) none

/-- Claim C8: unpack_flags(v, n) yields exactly n-1 booleans, element i
true iff bit i of v is set ((v >> i) & 1); requesting width 16 yields
exactly 15 booleans. -/
theorem C8_unpack_flags (v n : Nat) :
    (unpack_bitmask v n).length = n - 1
      ∧ (∀ i, i < n - 1 →
          (unpack_bitmask v n)[i]? = some (decide ((v >>> i) &&& 1 = 1)))
      ∧ (unpack_bitmask v 16).length = 15 := by
  refine ⟨by simp [unpack_bitmask], ?_, by simp [unpack_bitmask]⟩
  intro i hi
  simp [unpack_bitmask, List.getElem?_map, List.getElem?_range hi, and_shift_eq_decide]

theorem C8_unpack_flags_witness :
    (unpack_bitmask 5 16).length = 15 ∧ (unpack_bitmask 5 16)[2]? = some true := by
  refine ⟨(C8_unpack_flags 5 16).2.2, ?_⟩
  have h := (C8_unpack_flags 5 16).2.1 2 (by decide)
  simpa using h

/-- Claim C9: the contents field of public and private chat messages is
the ASCII-decoded payload text with leading and trailing whitespace
stripped (for private chat, the payload after the recipient byte), and a
whitespace-only payload strips to empty contents. -/
theorem C9_chat_contents_stripped :
    (∀ (ts : Int) (p : Player) (data : List Nat) (cs : List Char),
      asciiDecode data = .ok cs →
        make_message ts BROADCAST_TEXT (.player p) data
          = .ok (.one (.publicChat ts (some (p.update_timestamp ts)) (pyStrip cs)),
              .player (p.update_timestamp ts)))
    ∧ (∀ (ts : Int) (p : Player) (b : Nat) (tl : List Nat) (cs : List Char),
      asciiDecode tl = .ok cs →
        make_message ts SEND_TEXT (.player p) (b :: tl)
          = .ok (.one (.privateChat ts (some (p.update_timestamp ts)) b (pyStrip cs)),
              .player (p.update_timestamp ts)))
    ∧ (∀ cs : List Char, cs.all isPySpace → pyStrip cs = []) := by
  refine ⟨?_, ?_, pyStrip_all_space⟩
  · intro ts p data cs h
    unfold make_message
    rw [if_neg (by decide), if_neg (by decide), if_pos rfl]
    simp [baseInit, Bind.bind, Except.bind, h]
  · intro ts p b tl cs h
    unfold make_message
    rw [if_neg (by decide), if_pos rfl]
    simp [baseInit, Bind.bind, Except.bind, h, unpackFromLE, bytesToNatLE]

theorem C9_chat_contents_stripped_witness :
    make_message 0 BROADCAST_TEXT (.player (Player.make 0 [])) [32, 65, 32]
      = .ok (.one (.publicChat 0 (some ((Player.make 0 []).update_timestamp 0))
          (pyStrip [' ', 'A', ' '])), .player ((Player.make 0 []).update_timestamp 0)) :=
  C9_chat_contents_stripped.1 0 (Player.make 0 []) [32, 65, 32] [' ', 'A', ' '] (by decide)

/-- Claim C10: a DISCONNECTED envelope whose seat is not in the
seat-to-player map makes the decoded-message sequence raise an error at
that envelope instead of yielding a Disconnected message (for seat 255 the
seat-map removal fails; for any other unmapped seat the message constructor
itself fails on the raw int). -/
theorem C10_disconnect_unmapped_seat (e : RawEnvelope) (rest : List RawEnvelope)
    (seatMap : List (Nat × Player)) (hmt : e.msg_type = 4)
    (hseat : mapGet seatMap e.seat = none) :
    ∃ err, messagesFrom (e :: rest) seatMap = .error err := by
  obtain ⟨ts, mt, m, seat, params⟩ := e
  simp only at hmt hseat
  subst hmt
  by_cases h255 : seat = 255
  · subst h255
    refine ⟨.keyError 255, ?_⟩
    simp only [messagesFrom, hseat, make_replay_message, baseInit_sentinel,
      Bind.bind, Except.bind]
    rw [mapDel_of_get_none _ _ hseat]
  · refine ⟨.attributeError, ?_⟩
    simp only [messagesFrom, hseat, make_replay_message, baseInit,
      NONE_PLAYER, if_neg h255, Bind.bind, Except.bind]

theorem C10_disconnect_unmapped_seat_witness :
    ∃ err, messagesFrom [⟨0, 4, 0, 3, []⟩] [] = .error err :=
  C10_disconnect_unmapped_seat ⟨0, 4, 0, 3, []⟩ [] [] rfl rfl


end AchronReplay
